import Mathlib

/-!
Verification of the PropertyIQ ML service (`ml-service/api/main.py` and
`ml-service/models/price_predictor.py`) against its specification.

Python numeric values flowing through the scoring formulas are modelled as
exact rationals (`ℚ`); Python's `int(x)` conversion (truncation toward zero)
is modelled by `pyInt`.  All concrete counterexample inputs were chosen far
from binary floating-point rounding boundaries, so the rational model and the
IEEE-double execution agree on every concrete value appearing in a theorem.
-/

namespace PropertyIQ

/-- Python `int(x)`: truncation toward zero, on exact rationals. -/
def pyInt (q : ℚ) : ℤ := if q < 0 then -⌊-q⌋ else ⌊q⌋

/-! ### Price-per-sqft and property-type tables (`main.py` lines 260-280) -/

/-- Source `estimate_price_per_sqft`: `base_prices.get(property_type, 250)`.
The `zip_code` argument is accepted and ignored, as in the source. -/
def estimate_price_per_sqft (zip_code : String) (property_type : String) : ℚ :=
  if property_type = "SINGLE_FAMILY" then 250
  else if property_type = "CONDO" then 300
  else if property_type = "TOWNHOUSE" then 275
  else if property_type = "MULTI_FAMILY" then 200
  else 250

/-- Source `encode_property_type`: `encodings.get(property_type, 1)`. -/
def encode_property_type (property_type : String) : ℤ :=
  if property_type = "SINGLE_FAMILY" then 1
  else if property_type = "CONDO" then 2
  else if property_type = "TOWNHOUSE" then 3
  else if property_type = "MULTI_FAMILY" then 4
  else if property_type = "LAND" then 5
  else if property_type = "COMMERCIAL" then 6
  else 1

/-- Fallback branch of `/predict` (`main.py` line 138):
`predicted_price = int(features.sqft * price_per_sqft_estimate)`. -/
def fallback_predicted_price (sqft : ℤ) (zip_code property_type : String) : ℤ :=
  pyInt ((sqft : ℚ) * estimate_price_per_sqft zip_code property_type)

/-- The `/predict` confidence margin (`main.py` line 141):
`confidence_margin = int(predicted_price * 0.10)`. -/
def confidence_margin (predicted_price : ℤ) : ℤ :=
  pyInt ((predicted_price : ℚ) * (1 / 10))

/-- The `confidence_interval` dict of the `/predict` response
(`main.py` lines 159-162): `(low, high)`. -/
def confidence_interval (predicted_price : ℤ) : ℤ × ℤ :=
  (predicted_price - confidence_margin predicted_price,
   predicted_price + confidence_margin predicted_price)

/-! ### Investment scoring (`main.py` lines 79-97 and 184-430)

Python decimal literals (`0.30`, `1.5`, ...) are modelled by the exact
rationals they denote.  `market_metrics` is an arbitrary JSON dict in the
source; only the three keys the code reads are modelled, each `Option`-valued
to model key absence (`dict.get` defaults).  A `none` metrics value models
both `None` and an empty dict, which Python's `if not market_metrics:` treats
alike. -/

/-- The three keys of the `market_metrics` dict that the scoring code reads. -/
structure MarketMetrics where
  appreciation_1y : Option ℚ := none
  days_on_market_avg : Option ℚ := none
  market_temperature : Option String := none
deriving DecidableEq

/-- Python truthiness of an `Optional[int]`: `None` and `0` are falsy. -/
def optIntTruthy : Option ℤ → Bool
  | none => false
  | some v => v != 0

/-- Python truthiness of an `Optional[float]`: `None` and `0.0` are falsy. -/
def optRatTruthy : Option ℚ → Bool
  | none => false
  | some v => v != 0

/-- Source `calculate_appreciation_score` (`main.py` lines 307-322).  The guard
`if predicted_price and list_price:` is Python truthiness; the second step
applies `min(100, int(...))` with no lower clamp. -/
def calculate_appreciation_score (list_price : ℤ) (predicted_price : Option ℤ)
    (appreciation_forecast : Option ℚ) : ℚ :=
  let score : ℚ := 50
  let score :=
    if optIntTruthy predicted_price && (list_price != 0) then
      let upside : ℚ :=
        (((predicted_price.getD 0 : ℤ) : ℚ) - (list_price : ℚ)) / (list_price : ℚ) * 100
      min 100 (max 0 (50 + upside * 5))
    else score
  if optRatTruthy appreciation_forecast then
    min 100 ((pyInt ((score + (appreciation_forecast.getD 0) * 5) / 2) : ℤ) : ℚ)
  else score

/-- Source `calculate_cash_flow_score` (`main.py` lines 324-335).  The
`market_metrics` argument is accepted and ignored, as in the source.
The source divides by `list_price` and would raise `ZeroDivisionError` at 0;
every theorem below assumes a positive list price. -/
def calculate_cash_flow_score (list_price : ℤ) (sqft : ℤ)
    (market_metrics : Option MarketMetrics) : ℚ :=
  let estimated_rent : ℚ := (sqft : ℚ) * 1.5
  let annual_rent := estimated_rent * 12
  let gross_yield := annual_rent / (list_price : ℚ) * 100
  min 100 ((pyInt (gross_yield * 10) : ℤ) : ℚ)

/-- Source `calculate_market_momentum_score` (`main.py` lines 337-343). -/
def calculate_market_momentum_score : Option MarketMetrics → ℚ
  | none => 50
  | some m => min 100 (max 0 (50 + (m.appreciation_1y.getD 0) * 3))

/-- Source `calculate_liquidity_score` (`main.py` lines 345-351): no upper clamp. -/
def calculate_liquidity_score : Option MarketMetrics → ℚ
  | none => 50
  | some m => max 0 (100 - (m.days_on_market_avg.getD 60))

/-- Source `calculate_risk_score` (`main.py` lines 353-366):
`scores.get(market_metrics.get("market_temperature", "NEUTRAL"), 50)`. -/
def calculate_risk_score : Option MarketMetrics → ℚ
  | none => 50
  | some m =>
    let temperature := m.market_temperature.getD "NEUTRAL"
    if temperature = "HOT" then 30
    else if temperature = "WARM" then 40
    else if temperature = "NEUTRAL" then 50
    else if temperature = "COOL" then 60
    else if temperature = "COLD" then 70
    else 50

/-- Source `get_risk_level` (`main.py` lines 368-378). -/
def get_risk_level (risk_score : ℚ) : String :=
  if risk_score ≤ 30 then "Low"
  else if risk_score ≤ 50 then "Medium-Low"
  else if risk_score ≤ 70 then "Medium"
  else if risk_score ≤ 85 then "Medium-High"
  else "High"

/-- Source `generate_recommendation` (`main.py` lines 380-399). -/
def generate_recommendation (overall appreciation cash_flow risk : ℚ) : String :=
  if 80 ≤ overall then "Strong Buy - Excellent investment opportunity."
  else if 65 ≤ overall then "Buy - Good investment potential."
  else if 50 ≤ overall then
    if 70 < appreciation then
      "Consider - Strong appreciation potential for growth investors."
    else if 70 < cash_flow then
      "Consider - Strong cash flow for income investors."
    else "Hold - Average investment opportunity."
  else if 70 < risk then "Avoid - High risk with below-average returns."
  else "Pass - Look for better alternatives."

/-- Source `get_key_factors` (`main.py` lines 401-430): appends one phrase per
component in source order, then `factors or ["Average market conditions"]`. -/
def get_key_factors (appreciation cash_flow momentum liquidity : ℚ) : List String :=
  let f1 : List String :=
    if 70 ≤ appreciation then ["Strong appreciation potential"]
    else if appreciation ≤ 30 then ["Limited appreciation upside"] else []
  let f2 : List String :=
    if 70 ≤ cash_flow then ["Excellent cash flow opportunity"]
    else if cash_flow ≤ 30 then ["Weak rental yield"] else []
  let f3 : List String :=
    if 70 ≤ momentum then ["Strong market momentum"]
    else if momentum ≤ 30 then ["Declining market trend"] else []
  let f4 : List String :=
    if 70 ≤ liquidity then ["High market liquidity"]
    else if liquidity ≤ 30 then ["Low market liquidity - longer hold times expected"] else []
  let factors := f1 ++ f2 ++ f3 ++ f4
  if factors.isEmpty then ["Average market conditions"] else factors

/-- Body of a `POST /investment-score` request (`main.py` lines 79-85). -/
structure InvestmentScoreRequest where
  property_id : String := ""
  list_price : ℤ
  predicted_price : Option ℤ := none
  sqft : ℤ
  appreciation_forecast : Option ℚ := none
  market_metrics : Option MarketMetrics := none

/-- The values the handler places in `InvestmentScoreResponse`
(`main.py` lines 87-97), before any response-model serialization.  Fields are
rationals because the Python ints/floats flow unconverted into the response
constructor. -/
structure InvestmentScoreResponse where
  overall_score : ℚ
  appreciation_score : ℚ
  cash_flow_score : ℚ
  risk_adjusted_score : ℚ
  market_momentum_score : ℚ
  liquidity_score : ℚ
  risk_score : ℚ
  risk_level : String
  recommendation : String
  key_factors : List String

/-- The `/investment-score` handler `calculate_investment_score`
(`main.py` lines 184-257). -/
def calculate_investment_score (request : InvestmentScoreRequest) :
    InvestmentScoreResponse :=
  let appreciation_score := calculate_appreciation_score request.list_price
    request.predicted_price request.appreciation_forecast
  let cash_flow_score := calculate_cash_flow_score request.list_price
    request.sqft request.market_metrics
  let market_momentum_score := calculate_market_momentum_score request.market_metrics
  let liquidity_score := calculate_liquidity_score request.market_metrics
  let risk_score := calculate_risk_score request.market_metrics
  let risk_adjusted_score : ℚ :=
    (pyInt ((appreciation_score + cash_flow_score) / 2 * (1 - risk_score / 200)) : ℤ)
  let overall_score : ℚ :=
    (pyInt (appreciation_score * 0.30 + cash_flow_score * 0.25 +
      risk_adjusted_score * 0.20 + market_momentum_score * 0.15 +
      liquidity_score * 0.10) : ℤ)
  { overall_score := overall_score
    appreciation_score := appreciation_score
    cash_flow_score := cash_flow_score
    risk_adjusted_score := risk_adjusted_score
    market_momentum_score := market_momentum_score
    liquidity_score := liquidity_score
    risk_score := risk_score
    risk_level := get_risk_level risk_score
    recommendation := generate_recommendation overall_score appreciation_score
      cash_flow_score risk_score
    key_factors := get_key_factors appreciation_score cash_flow_score
      market_momentum_score liquidity_score }

/-! ### Comparable-sales generation (`main.py` lines 69-77 and 287-305)

Each loop iteration draws fresh random values (`np.random.uniform`,
`np.random.randint`, `np.random.choice`); the generator is modelled as a
function of an arbitrary per-index draw family.  `round(x, 2)` applied to the
distance and similarity draws is absorbed into the draw itself. -/

/-- Body of a `POST /comps` request (`main.py` lines 69-77). -/
structure CompsRequest where
  property_id : String := ""
  latitude : ℚ := 0
  longitude : ℚ := 0
  sqft : ℤ
  bedrooms : ℤ := 3
  bathrooms : ℚ := 2
  property_type : String := "SINGLE_FAMILY"
  limit : ℤ := 10

/-- The random values one loop iteration of `generate_synthetic_comps` draws:
price variance in `[-0.15, 0.15)`, sqft noise in `[-0.1, 0.1)`, bedroom delta
in `{-1, 0, 1}`, days back in `[30, 180)`, distance in `[0.1, 2.0)` and
similarity in `[0.75, 0.95)` (each already rounded where the source rounds). -/
structure CompDraw where
  variance : ℚ := 0
  sqft_noise : ℚ := 0
  bed_delta : ℤ := 0
  days_back : ℤ := 30
  distance : ℚ := 1
  similarity : ℚ := 0.8
deriving DecidableEq

/-- One synthetic comparable record (`main.py` lines 292-303).  The address
string `f"{100 + i * 10} Demo Street"` is modelled by its street number; the
sale date `now - timedelta(days=d)` by the day offset `d`. -/
structure Comp where
  address_number : ℤ
  sold_price : ℤ
  days_back : ℤ
  sqft : ℤ
  bedrooms : ℤ
  bathrooms : ℚ
  distance : ℚ
  similarity : ℚ
deriving DecidableEq

/-- The record built at loop index `i` from draw `d`
(`main.py` lines 291-303). -/
def makeComp (request : CompsRequest) (i : ℕ) (d : CompDraw) : Comp :=
  { address_number := 100 + (i : ℤ) * 10
    sold_price := pyInt ((request.sqft : ℚ) * 250 * (1 + d.variance))
    days_back := d.days_back
    sqft := pyInt ((request.sqft : ℚ) * (1 + d.sqft_noise))
    bedrooms := request.bedrooms + d.bed_delta
    bathrooms := request.bathrooms
    distance := d.distance
    similarity := d.similarity }

/-- Descending order on similarity: the sort key of
`sorted(comps, key=lambda x: x["similarity"], reverse=True)`. -/
def compGE (a b : Comp) : Prop := b.similarity ≤ a.similarity

instance : DecidableRel compGE := fun a b =>
  inferInstanceAs (Decidable (b.similarity ≤ a.similarity))

instance : IsTotal Comp compGE := ⟨fun a b => le_total b.similarity a.similarity⟩

instance : IsTrans Comp compGE := ⟨fun _ _ _ h1 h2 => le_trans h2 h1⟩

/-- Source `generate_synthetic_comps` (`main.py` lines 287-305): `range(limit)`
iterations (empty for `limit ≤ 0`, like Python's `range`), then a stable sort
by similarity descending (Python's `sorted` with `reverse=True`, modelled by
the stable `insertionSort` under `compGE`). -/
def generate_synthetic_comps (request : CompsRequest) (draws : ℕ → CompDraw) :
    List Comp :=
  let comps := (List.range request.limit.toNat).map
    (fun i => makeComp request i (draws i))
  List.insertionSort compGE comps

/-! ### Training module guards (`models/price_predictor.py`)

The statistical internals of `fit`/`predict` are third-party library calls,
out of scope per spec §1/§4.4; what is modelled is the `is_fitted` protocol:
`__init__` sets `is_fitted = False`; `fit` sets it `True` only on reaching its
final lines (159 and 302), so an earlier library exception leaves it `False`;
`load` sets it `True` (lines 240 and 328); `predict` and
`get_feature_importance` raise `ValueError` when `is_fitted` is `False`
(lines 177-178, 202-203, 307-308) and pass the guard otherwise. -/

/-- Fitted-state of a `PropertyPricePredictor` instance. -/
structure PropertyPricePredictor where
  is_fitted : Bool

/-- Source `PropertyPricePredictor.__init__` (lines 29-34). -/
def PropertyPricePredictor.init : PropertyPricePredictor :=
  { is_fitted := false }

/-- Source `PropertyPricePredictor.fit` (lines 71-160): `completes` records whether
the training body runs to line 159, where `is_fitted` becomes `True`. -/
def PropertyPricePredictor.fit (p : PropertyPricePredictor) (completes : Bool) :
    PropertyPricePredictor :=
  if completes then { p with is_fitted := true } else p

/-- Source `PropertyPricePredictor.load` (lines 230-243): sets `is_fitted = True`. -/
def PropertyPricePredictor.load : PropertyPricePredictor :=
  { is_fitted := true }

/-- The not-fitted guard of `PropertyPricePredictor.predict`
(lines 177-178); the prediction payload itself is external library output. -/
def PropertyPricePredictor.predict (p : PropertyPricePredictor) :
    Except String Unit :=
  if p.is_fitted then Except.ok ()
  else Except.error "Model must be fitted before prediction"

/-- The not-fitted guard of `PropertyPricePredictor.get_feature_importance`
(lines 202-203). -/
def PropertyPricePredictor.get_feature_importance (p : PropertyPricePredictor) :
    Except String Unit :=
  if p.is_fitted then Except.ok ()
  else Except.error "Model must be fitted first"

/-- Fitted-state of an `AppreciationPredictor` instance. -/
structure AppreciationPredictor where
  is_fitted : Bool

/-- Source `AppreciationPredictor.__init__` (lines 252-255). -/
def AppreciationPredictor.init : AppreciationPredictor :=
  { is_fitted := false }

/-- Source `AppreciationPredictor.fit` (lines 257-303): `is_fitted` becomes `True`
only at line 302. -/
def AppreciationPredictor.fit (p : AppreciationPredictor) (completes : Bool) :
    AppreciationPredictor :=
  if completes then { p with is_fitted := true } else p

/-- Source `AppreciationPredictor.load` (lines 320-329). -/
def AppreciationPredictor.load : AppreciationPredictor :=
  { is_fitted := true }

/-- The not-fitted guard of `AppreciationPredictor.predict`
(lines 307-308). -/
def AppreciationPredictor.predict (p : AppreciationPredictor) :
    Except String Unit :=
  if p.is_fitted then Except.ok ()
  else Except.error "Model must be fitted first"

/-! ### Concrete inputs used in the claim theorems below -/

/-- The C2 example request: `list_price=300000`, `sqft=1500`, no
`predicted_price`, no `appreciation_forecast`, no `market_metrics`. -/
def c2req : InvestmentScoreRequest := { list_price := 300000, sqft := 1500 }

def c4req : CompsRequest := { sqft := 1001, limit := 1 }

def c4draw : CompDraw := { sqft_noise := -0.09995 }

def c1req : InvestmentScoreRequest :=
  { list_price := 300000, sqft := 1500, appreciation_forecast := some (-30) }

def c1wreq : InvestmentScoreRequest := { list_price := 200000, sqft := 1000 }

def c7req : CompsRequest := { sqft := 1400, limit := 3 }

def c7draws : ℕ → CompDraw := fun i => { similarity := 0.8 + (i : ℚ) / 100 }

/-! ### Arithmetic facts about `pyInt` -/

theorem pyInt_of_nonneg {q : ℚ} (h : 0 ≤ q) : pyInt q = ⌊q⌋ := by
  rw [pyInt, if_neg (not_lt.mpr h)]

theorem pyInt_nonneg {q : ℚ} (h : 0 ≤ q) : 0 ≤ pyInt q := by
  rw [pyInt_of_nonneg h]; exact Int.floor_nonneg.mpr h

theorem pyInt_le_self {q : ℚ} (h : 0 ≤ q) : (pyInt q : ℚ) ≤ q := by
  rw [pyInt_of_nonneg h]; exact Int.floor_le q

theorem pyInt_le_of_le {q : ℚ} {n : ℤ} (h0 : 0 ≤ q) (h : q ≤ (n : ℚ)) :
    pyInt q ≤ n := by
  rw [pyInt_of_nonneg h0]
  exact le_trans (Int.floor_mono h) (le_of_eq (Int.floor_intCast n))

theorem pyInt_gt_sub_one {q : ℚ} (h : 0 ≤ q) : q - 1 < (pyInt q : ℚ) := by
  rw [pyInt_of_nonneg h]; exact Int.sub_one_lt_floor q

theorem pyInt_intCast (n : ℤ) : pyInt (n : ℚ) = n := by
  rw [pyInt]
  by_cases h : (n : ℚ) < 0
  · rw [if_pos h]
    rw [show (-(n : ℚ)) = ((-n : ℤ) : ℚ) by push_cast; ring, Int.floor_intCast]
    ring
  · rw [if_neg h, Int.floor_intCast]

/-- Bounds of `pyInt` on a nonnegative input below an integer bound. -/
theorem pyInt_mem {q : ℚ} {n : ℤ} (h0 : 0 ≤ q) (h1 : q ≤ (n : ℚ)) :
    0 ≤ pyInt q ∧ pyInt q ≤ n :=
  ⟨pyInt_nonneg h0, pyInt_le_of_le h0 h1⟩

/-! ## Claims -/

/-- C6: the price-per-sqft table is SINGLE_FAMILY=250, CONDO=300,
TOWNHOUSE=275, MULTI_FAMILY=200 with default 250 for unrecognized types; the
fallback price estimate is `sqft * table[property_type]`; and the numeric
encoding is SINGLE_FAMILY=1, CONDO=2, TOWNHOUSE=3, MULTI_FAMILY=4, LAND=5,
COMMERCIAL=6 with default 1. -/
theorem C6_tables (z s : String) (sqft : ℤ)
    (h1 : s ≠ "SINGLE_FAMILY") (h2 : s ≠ "CONDO") (h3 : s ≠ "TOWNHOUSE")
    (h4 : s ≠ "MULTI_FAMILY") (h5 : s ≠ "LAND") (h6 : s ≠ "COMMERCIAL") :
    estimate_price_per_sqft z "SINGLE_FAMILY" = 250
  ∧ estimate_price_per_sqft z "CONDO" = 300
  ∧ estimate_price_per_sqft z "TOWNHOUSE" = 275
  ∧ estimate_price_per_sqft z "MULTI_FAMILY" = 200
  ∧ estimate_price_per_sqft z s = 250
  ∧ (∀ t, (fallback_predicted_price sqft z t : ℚ) =
      (sqft : ℚ) * estimate_price_per_sqft z t)
  ∧ encode_property_type "SINGLE_FAMILY" = 1
  ∧ encode_property_type "CONDO" = 2
  ∧ encode_property_type "TOWNHOUSE" = 3
  ∧ encode_property_type "MULTI_FAMILY" = 4
  ∧ encode_property_type "LAND" = 5
  ∧ encode_property_type "COMMERCIAL" = 6
  ∧ encode_property_type s = 1 := by
  refine ⟨rfl, rfl, rfl, rfl, ?_, ?_, rfl, rfl, rfl, rfl, rfl, rfl, ?_⟩
  · simp [estimate_price_per_sqft, h1, h2, h3, h4]
  · intro t
    unfold fallback_predicted_price estimate_price_per_sqft
    split_ifs
    · rw [show ((sqft : ℚ) * (250 : ℚ)) = ((sqft * 250 : ℤ) : ℚ) by push_cast; ring,
        pyInt_intCast]
    · rw [show ((sqft : ℚ) * (300 : ℚ)) = ((sqft * 300 : ℤ) : ℚ) by push_cast; ring,
        pyInt_intCast]
    · rw [show ((sqft : ℚ) * (275 : ℚ)) = ((sqft * 275 : ℤ) : ℚ) by push_cast; ring,
        pyInt_intCast]
    · rw [show ((sqft : ℚ) * (200 : ℚ)) = ((sqft * 200 : ℤ) : ℚ) by push_cast; ring,
        pyInt_intCast]
    · rw [show ((sqft : ℚ) * (250 : ℚ)) = ((sqft * 250 : ℤ) : ℚ) by push_cast; ring,
        pyInt_intCast]
  · simp [encode_property_type, h1, h2, h3, h4, h5, h6]

theorem C6_tables_witness :
    estimate_price_per_sqft "94105" "SINGLE_FAMILY" = 250
  ∧ estimate_price_per_sqft "94105" "CONDO" = 300
  ∧ estimate_price_per_sqft "94105" "TOWNHOUSE" = 275
  ∧ estimate_price_per_sqft "94105" "MULTI_FAMILY" = 200
  ∧ estimate_price_per_sqft "94105" "FARM" = 250
  ∧ (∀ t, (fallback_predicted_price 1200 "94105" t : ℚ) =
      (1200 : ℚ) * estimate_price_per_sqft "94105" t)
  ∧ encode_property_type "SINGLE_FAMILY" = 1
  ∧ encode_property_type "CONDO" = 2
  ∧ encode_property_type "TOWNHOUSE" = 3
  ∧ encode_property_type "MULTI_FAMILY" = 4
  ∧ encode_property_type "LAND" = 5
  ∧ encode_property_type "COMMERCIAL" = 6
  ∧ encode_property_type "FARM" = 1 :=
  C6_tables "94105" "FARM" 1200 (by decide) (by decide) (by decide) (by decide)
    (by decide) (by decide)

/-- C8: `generate_recommendation` follows the exact branch priority order of
the source if-chain, and at `overall = 80`, `appreciation = 90`,
`cash_flow = 90`, `risk = 10` the `overall ≥ 80` branch wins, giving the
Strong Buy text. -/
theorem C8_recommendation_priority (o a c r : ℚ) :
    (80 ≤ o → generate_recommendation o a c r =
      "Strong Buy - Excellent investment opportunity.")
  ∧ (o < 80 → 65 ≤ o → generate_recommendation o a c r =
      "Buy - Good investment potential.")
  ∧ (o < 65 → 50 ≤ o → 70 < a → generate_recommendation o a c r =
      "Consider - Strong appreciation potential for growth investors.")
  ∧ (o < 65 → 50 ≤ o → a ≤ 70 → 70 < c → generate_recommendation o a c r =
      "Consider - Strong cash flow for income investors.")
  ∧ (o < 65 → 50 ≤ o → a ≤ 70 → c ≤ 70 → generate_recommendation o a c r =
      "Hold - Average investment opportunity.")
  ∧ (o < 50 → 70 < r → generate_recommendation o a c r =
      "Avoid - High risk with below-average returns.")
  ∧ (o < 50 → r ≤ 70 → generate_recommendation o a c r =
      "Pass - Look for better alternatives.")
  ∧ generate_recommendation 80 90 90 10 =
      "Strong Buy - Excellent investment opportunity." := by
  refine ⟨?_, ?_, ?_, ?_, ?_, ?_, ?_, ?_⟩ <;>
    · intros
      unfold generate_recommendation
      split_ifs <;> first | rfl | linarith

theorem C8_recommendation_witness :
    generate_recommendation 55 80 20 10 =
      "Consider - Strong appreciation potential for growth investors." :=
  (C8_recommendation_priority 55 80 20 10).2.2.1 (by norm_num) (by norm_num)
    (by norm_num)

/-- C9: a freshly constructed predictor (price or appreciation) fails the
not-fitted guard of `predict`/`get_feature_importance` with the source's
`ValueError` message, an incomplete `fit` leaves it failing, and a completed
`fit` or a `load` makes the guard pass. -/
theorem C9_fitted_guards :
    PropertyPricePredictor.init.predict =
      Except.error "Model must be fitted before prediction"
  ∧ PropertyPricePredictor.init.get_feature_importance =
      Except.error "Model must be fitted first"
  ∧ (PropertyPricePredictor.init.fit false).predict =
      Except.error "Model must be fitted before prediction"
  ∧ (PropertyPricePredictor.init.fit true).predict = Except.ok ()
  ∧ (PropertyPricePredictor.init.fit true).get_feature_importance = Except.ok ()
  ∧ PropertyPricePredictor.load.predict = Except.ok ()
  ∧ PropertyPricePredictor.load.get_feature_importance = Except.ok ()
  ∧ AppreciationPredictor.init.predict =
      Except.error "Model must be fitted first"
  ∧ (AppreciationPredictor.init.fit false).predict =
      Except.error "Model must be fitted first"
  ∧ (AppreciationPredictor.init.fit true).predict = Except.ok ()
  ∧ AppreciationPredictor.load.predict = Except.ok () :=
  ⟨rfl, rfl, rfl, rfl, rfl, rfl, rfl, rfl, rfl, rfl, rfl⟩

/-- C10: a `predicted_price` of exactly 0 and an `appreciation_forecast` of
exactly 0.0 are each treated as absent by `calculate_appreciation_score`
(Python truthiness), so a zero forecast leaves the score at its prior value
(here 100) where any tiny nonzero forecast would blend it down (here to 50). -/
theorem C10_zero_treated_as_absent :
    (∀ (lp : ℤ) (af : Option ℚ),
      calculate_appreciation_score lp (some 0) af =
        calculate_appreciation_score lp none af)
  ∧ (∀ (lp : ℤ) (pp : Option ℤ),
      calculate_appreciation_score lp pp (some 0) =
        calculate_appreciation_score lp pp none)
  ∧ calculate_appreciation_score 100 (some 150) (some 0) = 100
  ∧ calculate_appreciation_score 100 (some 150) none = 100
  ∧ calculate_appreciation_score 100 (some 150) (some (1 / 1000000)) = 50 := by
  refine ⟨?_, ?_, ?_, ?_, ?_⟩
  · intro lp af
    simp [calculate_appreciation_score, optIntTruthy]
  · intro lp pp
    simp [calculate_appreciation_score, optRatTruthy]
  · norm_num [calculate_appreciation_score, optIntTruthy, optRatTruthy]
  · norm_num [calculate_appreciation_score, optIntTruthy, optRatTruthy]
  · norm_num [calculate_appreciation_score, optIntTruthy, optRatTruthy, pyInt]

/-- C5 counterexample: at predicted price 275 (fallback path: sqft=1, type
TOWNHOUSE) the code returns low = 275 - int(27.5) = 248, but truncating
275 * 0.90 gives 247, so the claimed `low = trunc(p * 0.90)` is false. -/
theorem C5_counterexample :
    confidence_interval 275 = (248, 302)
  ∧ pyInt ((275 : ℚ) * 0.90) = 247
  ∧ (248 : ℤ) ≠ 247 := by
  refine ⟨?_, ?_, by decide⟩
  · norm_num [confidence_interval, confidence_margin, pyInt, Prod.ext_iff]
  · norm_num [pyInt]

/-- C5 (amended): for every nonnegative predicted price `p`, the band is
`low = p - trunc(p * 0.10)` and `high = p + trunc(p * 0.10) = trunc(p * 1.10)`,
it is symmetric around `p`, and `low` equals the claimed `trunc(p * 0.90)`
exactly when `p` is a multiple of 10. -/
theorem C5_confidence_band (p : ℤ) (hp : 0 ≤ p) :
    (confidence_interval p).1 = p - pyInt ((p : ℚ) * 0.10)
  ∧ (confidence_interval p).2 = pyInt ((p : ℚ) * 1.10)
  ∧ p - (confidence_interval p).1 = (confidence_interval p).2 - p
  ∧ ((confidence_interval p).1 = pyInt ((p : ℚ) * 0.90) ↔ (10 : ℤ) ∣ p) := by
  have hpq : (0 : ℚ) ≤ (p : ℚ) := by exact_mod_cast hp
  have hm : confidence_margin p = p / 10 := by
    rw [confidence_margin,
      show ((p : ℚ) * (1 / 10)) = ((p : ℤ) : ℚ) / ((10 : ℕ) : ℚ) by push_cast; ring,
      pyInt_of_nonneg (div_nonneg hpq (by norm_num)),
      Rat.floor_intCast_div_natCast]
    norm_num
  have h10 : pyInt ((p : ℚ) * 0.10) = p / 10 := by
    rw [show ((p : ℚ) * 0.10) = ((p : ℤ) : ℚ) / ((10 : ℕ) : ℚ) by push_cast; norm_num; ring,
      pyInt_of_nonneg (div_nonneg hpq (by norm_num)),
      Rat.floor_intCast_div_natCast]
    norm_num
  have h11 : pyInt ((p : ℚ) * 1.10) = (11 * p) / 10 := by
    rw [show ((p : ℚ) * 1.10) = ((11 * p : ℤ) : ℚ) / ((10 : ℕ) : ℚ) by push_cast; norm_num; ring,
      pyInt_of_nonneg (div_nonneg (by positivity) (by norm_num)),
      Rat.floor_intCast_div_natCast]
    norm_num
  have h09 : pyInt ((p : ℚ) * 0.90) = (9 * p) / 10 := by
    rw [show ((p : ℚ) * 0.90) = ((9 * p : ℤ) : ℚ) / ((10 : ℕ) : ℚ) by push_cast; norm_num; ring,
      pyInt_of_nonneg (div_nonneg (by positivity) (by norm_num)),
      Rat.floor_intCast_div_natCast]
    norm_num
  refine ⟨by rw [confidence_interval, hm, h10], ?_, ?_, ?_⟩
  · show p + confidence_margin p = _
    rw [hm, h11]; omega
  · show p - (p - confidence_margin p) = p + confidence_margin p - p
    ring
  · show p - confidence_margin p = _ ↔ _
    rw [hm, h09]
    omega

theorem C5_witness :
    (confidence_interval 275).1 = 275 - pyInt ((275 : ℚ) * 0.10)
  ∧ (confidence_interval 275).2 = pyInt ((275 : ℚ) * 1.10)
  ∧ (275 : ℤ) - (confidence_interval 275).1 = (confidence_interval 275).2 - 275
  ∧ ((confidence_interval 275).1 = pyInt ((275 : ℚ) * 0.90) ↔ (10 : ℤ) ∣ 275) :=
  C5_confidence_band 275 (by decide)

/-- C2 counterexample: on the example request the weighted sum is
`50*0.3 + 90*0.25 + 52*0.2 + 50*0.15 + 50*0.1 = 60.4`, so the overall score
is 60, not the claimed 53 (and the recommendation is therefore not "Hold"). -/
theorem C2_counterexample :
    (calculate_investment_score c2req).overall_score = 60
  ∧ ¬ ((calculate_investment_score c2req).overall_score = 53
      ∧ (calculate_investment_score c2req).recommendation =
          "Hold - Average investment opportunity.") := by
  have h : (calculate_investment_score c2req).overall_score = 60 := by
    simp [calculate_investment_score, c2req, calculate_appreciation_score,
      calculate_cash_flow_score, calculate_market_momentum_score,
      calculate_liquidity_score, calculate_risk_score, optIntTruthy, optRatTruthy]
    norm_num [pyInt]
  refine ⟨h, ?_⟩
  rintro ⟨h53, _⟩
  rw [h] at h53
  norm_num at h53

/-- C2 (amended): the example request yields appreciation=50, cash_flow=90,
momentum=50, liquidity=50, risk=50, risk_adjusted=52, overall=60, and the
recommendation is the cash-flow "Consider" text (overall 60 is in [50,65) and
cash_flow 90 > 70). -/
theorem C2_example_values :
    (calculate_investment_score c2req).appreciation_score = 50
  ∧ (calculate_investment_score c2req).cash_flow_score = 90
  ∧ (calculate_investment_score c2req).market_momentum_score = 50
  ∧ (calculate_investment_score c2req).liquidity_score = 50
  ∧ (calculate_investment_score c2req).risk_score = 50
  ∧ (calculate_investment_score c2req).risk_adjusted_score = 52
  ∧ (calculate_investment_score c2req).overall_score = 60
  ∧ (calculate_investment_score c2req).recommendation =
      "Consider - Strong cash flow for income investors." := by
  refine ⟨?_, ?_, ?_, ?_, ?_, ?_, ?_, ?_⟩ <;>
  · simp [calculate_investment_score, c2req, calculate_appreciation_score,
      calculate_cash_flow_score, calculate_market_momentum_score,
      calculate_liquidity_score, calculate_risk_score, optIntTruthy, optRatTruthy,
      generate_recommendation]
    try norm_num [pyInt]

/-- C3: for positive list price, with neither model price nor forecast the
appreciation score is 50; with a (nonzero) model price it is
`clamp(0,100, 50 + 5 * upside)` where `upside = (pp - lp)/lp * 100`; with a
(nonzero) forecast additionally given, the final score is
`min(100, trunc((score + forecast*5)/2))` - an upper clamp only: the last
conjunct exhibits a negative final score, so no lower clamp is applied.
"Given" is formalized as present-and-nonzero, matching the source's Python
truthiness test (cf. C10). -/
theorem C3_appreciation_formula (lp pp : ℤ) (g : ℚ)
    (hlp : 0 < lp) (hpp : pp ≠ 0) (hg : g ≠ 0) :
    calculate_appreciation_score lp none none = 50
  ∧ calculate_appreciation_score lp (some pp) none =
      min 100 (max 0 (50 + (((pp : ℚ) - (lp : ℚ)) / (lp : ℚ) * 100) * 5))
  ∧ calculate_appreciation_score lp (some pp) (some g) =
      min 100 ((pyInt ((min 100 (max 0 (50 + (((pp : ℚ) - (lp : ℚ)) / (lp : ℚ) * 100) * 5))
        + g * 5) / 2) : ℤ) : ℚ)
  ∧ calculate_appreciation_score 100 (some 1) (some (-10)) = -25 := by
  have hlp' : lp ≠ 0 := ne_of_gt hlp
  refine ⟨rfl, ?_, ?_, ?_⟩
  · simp [calculate_appreciation_score, optIntTruthy, optRatTruthy, hpp, hlp']
  · simp [calculate_appreciation_score, optIntTruthy, optRatTruthy, hpp, hlp', hg]
  · norm_num [calculate_appreciation_score, optIntTruthy, optRatTruthy, pyInt]

/-- C7: for a requested count `limit = N >= 0`, `generate_synthetic_comps`
returns exactly `N` records, ordered by similarity score non-increasingly. -/
theorem C7_comps_sorted (req : CompsRequest) (draws : ℕ → CompDraw)
    (hN : 0 ≤ req.limit) :
    ((generate_synthetic_comps req draws).length : ℤ) = req.limit
  ∧ List.Sorted compGE (generate_synthetic_comps req draws) := by
  constructor
  · simp [generate_synthetic_comps]
    omega
  · exact List.sorted_insertionSort compGE _

/-- C4 counterexample: query sqft 1001 with an in-range noise draw of
-0.09995 produces a comp sqft of `int(1001 * 0.90005) = 900`, strictly below
`0.9 * 1001 = 900.9` - truncation breaks the claimed lower bound. -/
theorem C4_counterexample :
    ((-0.1 : ℚ) ≤ c4draw.sqft_noise ∧ c4draw.sqft_noise < 0.1)
  ∧ 0 < c4req.sqft
  ∧ ∃ c ∈ generate_synthetic_comps c4req (fun _ => c4draw),
      ¬ ((0.9 : ℚ) * (c4req.sqft : ℚ) ≤ (c.sqft : ℚ)) := by
  refine ⟨⟨by norm_num [c4draw], by norm_num [c4draw]⟩, by norm_num [c4req], ?_⟩
  refine ⟨makeComp c4req 0 c4draw, ?_, ?_⟩
  · simp [generate_synthetic_comps, c4req]
  · norm_num [makeComp, c4req, c4draw, pyInt]

/-- C4 (amended): every generated comp sqft `s` satisfies
`0.9 * query_sqft - 1 < s <= 1.1 * query_sqft`: the claimed two-sided 10%
band holds up to one unit of slack on the lower side, introduced by `int()`
truncation. -/
theorem C4_sqft_band (req : CompsRequest) (draws : ℕ → CompDraw) (c : Comp)
    (hsq : 0 < req.sqft)
    (hnoise : ∀ i, (-0.1 : ℚ) ≤ (draws i).sqft_noise ∧ (draws i).sqft_noise < 0.1)
    (hc : c ∈ generate_synthetic_comps req draws) :
    (0.9 : ℚ) * (req.sqft : ℚ) - 1 < (c.sqft : ℚ)
  ∧ (c.sqft : ℚ) ≤ (1.1 : ℚ) * (req.sqft : ℚ) := by
  simp only [generate_synthetic_comps, List.mem_insertionSort, List.mem_map,
    List.mem_range] at hc
  obtain ⟨i, _, rfl⟩ := hc
  obtain ⟨hu1, hu2⟩ := hnoise i
  have hq : (0 : ℚ) < (req.sqft : ℚ) := by exact_mod_cast hsq
  simp only [makeComp]
  have hx0 : (0 : ℚ) ≤ (req.sqft : ℚ) * (1 + (draws i).sqft_noise) := by nlinarith
  have hxlow : (0.9 : ℚ) * (req.sqft : ℚ) ≤ (req.sqft : ℚ) * (1 + (draws i).sqft_noise) := by
    nlinarith
  have hxhigh : (req.sqft : ℚ) * (1 + (draws i).sqft_noise) ≤ (1.1 : ℚ) * (req.sqft : ℚ) := by
    nlinarith
  constructor
  · have := pyInt_gt_sub_one hx0
    linarith
  · have := pyInt_le_self hx0
    linarith

theorem clamp01_bounds (x : ℚ) : 0 ≤ min 100 (max 0 x) ∧ min 100 (max 0 x) ≤ 100 :=
  ⟨le_min (by norm_num) (le_max_left 0 x), min_le_left _ _⟩

theorem cas_bounds (lp : ℤ) (pp : Option ℤ) (af : Option ℚ)
    (hf : ∀ g, af = some g → 0 ≤ g) :
    0 ≤ calculate_appreciation_score lp pp af
  ∧ calculate_appreciation_score lp pp af ≤ 100 := by
  have hgetD : optRatTruthy af = true → 0 ≤ af.getD 0 := by
    cases af with
    | none => intro h; simp [optRatTruthy] at h
    | some g => intro _; exact hf g rfl
  simp only [calculate_appreciation_score]
  split_ifs with h1 h2 h3
  · constructor
    · exact le_min (by norm_num) (by
        exact_mod_cast pyInt_nonneg (div_nonneg
          (add_nonneg (clamp01_bounds _).1 (mul_nonneg (hgetD h1) (by norm_num)))
          (by norm_num)))
    · exact min_le_left _ _
  · constructor
    · exact le_min (by norm_num) (by
        exact_mod_cast pyInt_nonneg (div_nonneg
          (add_nonneg (by norm_num) (mul_nonneg (hgetD h1) (by norm_num)))
          (by norm_num)))
    · exact min_le_left _ _
  · exact clamp01_bounds _
  · norm_num

theorem cfs_bounds (lp sqft : ℤ) (mm : Option MarketMetrics)
    (hlp : 0 < lp) (hsq : 0 ≤ sqft) :
    0 ≤ calculate_cash_flow_score lp sqft mm
  ∧ calculate_cash_flow_score lp sqft mm ≤ 100 := by
  have h1 : (0 : ℚ) ≤ (sqft : ℚ) := by exact_mod_cast hsq
  have h2 : (0 : ℚ) < (lp : ℚ) := by exact_mod_cast hlp
  have harg : (0 : ℚ) ≤ (sqft : ℚ) * 1.5 * 12 / (lp : ℚ) * 100 * 10 :=
    mul_nonneg (mul_nonneg (div_nonneg
      (mul_nonneg (mul_nonneg h1 (by norm_num)) (by norm_num)) h2.le)
      (by norm_num)) (by norm_num)
  simp only [calculate_cash_flow_score]
  exact ⟨le_min (by norm_num) (by exact_mod_cast pyInt_nonneg harg), min_le_left _ _⟩

theorem momentum_bounds (mm : Option MarketMetrics) :
    0 ≤ calculate_market_momentum_score mm
  ∧ calculate_market_momentum_score mm ≤ 100 := by
  cases mm with
  | none => norm_num [calculate_market_momentum_score]
  | some m =>
    simp only [calculate_market_momentum_score]
    exact clamp01_bounds _

theorem liquidity_bounds (mm : Option MarketMetrics)
    (hd : ∀ m d, mm = some m → m.days_on_market_avg = some d → 0 ≤ d) :
    0 ≤ calculate_liquidity_score mm
  ∧ calculate_liquidity_score mm ≤ 100 := by
  cases mm with
  | none => norm_num [calculate_liquidity_score]
  | some m =>
    simp only [calculate_liquidity_score]
    refine ⟨le_max_left _ _, ?_⟩
    rcases hdm : m.days_on_market_avg with _ | d
    · simp only [Option.getD_none]
      norm_num
    · have h0 := hd m d rfl hdm
      simp only [Option.getD_some]
      exact max_le (by norm_num) (by linarith)

theorem risk_bounds (mm : Option MarketMetrics) :
    0 ≤ calculate_risk_score mm ∧ calculate_risk_score mm ≤ 100 := by
  cases mm with
  | none => norm_num [calculate_risk_score]
  | some m =>
    simp only [calculate_risk_score]
    split_ifs <;> norm_num

theorem risk_adjusted_bounds {a c r : ℚ}
    (ha : 0 ≤ a ∧ a ≤ 100) (hc : 0 ≤ c ∧ c ≤ 100) (hr : 0 ≤ r ∧ r ≤ 100) :
    0 ≤ pyInt ((a + c) / 2 * (1 - r / 200))
  ∧ pyInt ((a + c) / 2 * (1 - r / 200)) ≤ 100 := by
  have key : (a + c) / 2 * (1 - r / 200) ≤ 100 * 1 :=
    mul_le_mul (by linarith [ha.2, hc.2]) (by linarith [hr.1])
      (by linarith [hr.2]) (by norm_num)
  apply pyInt_mem
  · exact mul_nonneg (by linarith [ha.1, hc.1]) (by linarith [hr.2])
  · push_cast
    linarith

theorem overall_bounds {a c mo li : ℚ} {ra : ℤ}
    (ha : 0 ≤ a ∧ a ≤ 100) (hc : 0 ≤ c ∧ c ≤ 100)
    (hra : 0 ≤ ra ∧ ra ≤ 100) (hmo : 0 ≤ mo ∧ mo ≤ 100)
    (hli : 0 ≤ li ∧ li ≤ 100) :
    0 ≤ pyInt (a * 0.30 + c * 0.25 + (ra : ℚ) * 0.20 + mo * 0.15 + li * 0.10)
  ∧ pyInt (a * 0.30 + c * 0.25 + (ra : ℚ) * 0.20 + mo * 0.15 + li * 0.10) ≤ 100 := by
  have hraq1 : (0 : ℚ) ≤ (ra : ℚ) := by exact_mod_cast hra.1
  have hraq2 : (ra : ℚ) ≤ 100 := by exact_mod_cast hra.2
  apply pyInt_mem
  · have t1 : (0 : ℚ) ≤ a * 0.30 := mul_nonneg ha.1 (by norm_num)
    have t2 : (0 : ℚ) ≤ c * 0.25 := mul_nonneg hc.1 (by norm_num)
    have t3 : (0 : ℚ) ≤ (ra : ℚ) * 0.20 := mul_nonneg hraq1 (by norm_num)
    have t4 : (0 : ℚ) ≤ mo * 0.15 := mul_nonneg hmo.1 (by norm_num)
    have t5 : (0 : ℚ) ≤ li * 0.10 := mul_nonneg hli.1 (by norm_num)
    linarith
  · push_cast
    linarith [ha.2, hc.2, hraq2, hmo.2, hli.2]

/-- C1 (amended): all six component scores (appreciation, cash-flow,
market-momentum, liquidity, risk-adjusted, risk) and the overall score lie in
`[0, 100]` provided the list price is positive, the sqft is nonnegative, and
any supplied appreciation forecast and days-on-market average are
nonnegative; without those provisos the appreciation (hence risk-adjusted and
overall) score can go negative and the liquidity score can exceed 100. -/
theorem C1_score_ranges (req : InvestmentScoreRequest)
    (hlp : 0 < req.list_price) (hsq : 0 ≤ req.sqft)
    (hf : ∀ g, req.appreciation_forecast = some g → 0 ≤ g)
    (hd : ∀ m d, req.market_metrics = some m →
      m.days_on_market_avg = some d → 0 ≤ d) :
    (0 ≤ (calculate_investment_score req).appreciation_score
      ∧ (calculate_investment_score req).appreciation_score ≤ 100)
  ∧ (0 ≤ (calculate_investment_score req).cash_flow_score
      ∧ (calculate_investment_score req).cash_flow_score ≤ 100)
  ∧ (0 ≤ (calculate_investment_score req).market_momentum_score
      ∧ (calculate_investment_score req).market_momentum_score ≤ 100)
  ∧ (0 ≤ (calculate_investment_score req).liquidity_score
      ∧ (calculate_investment_score req).liquidity_score ≤ 100)
  ∧ (0 ≤ (calculate_investment_score req).risk_adjusted_score
      ∧ (calculate_investment_score req).risk_adjusted_score ≤ 100)
  ∧ (0 ≤ (calculate_investment_score req).risk_score
      ∧ (calculate_investment_score req).risk_score ≤ 100)
  ∧ (0 ≤ (calculate_investment_score req).overall_score
      ∧ (calculate_investment_score req).overall_score ≤ 100) := by
  obtain ⟨a0, a1⟩ := cas_bounds req.list_price req.predicted_price
    req.appreciation_forecast hf
  obtain ⟨c0, c1⟩ := cfs_bounds req.list_price req.sqft req.market_metrics hlp hsq
  obtain ⟨m0, m1⟩ := momentum_bounds req.market_metrics
  obtain ⟨l0, l1⟩ := liquidity_bounds req.market_metrics hd
  obtain ⟨r0, r1⟩ := risk_bounds req.market_metrics
  obtain ⟨ra0, ra1⟩ := risk_adjusted_bounds ⟨a0, a1⟩ ⟨c0, c1⟩ ⟨r0, r1⟩
  obtain ⟨ov0, ov1⟩ := overall_bounds ⟨a0, a1⟩ ⟨c0, c1⟩ ⟨ra0, ra1⟩ ⟨m0, m1⟩ ⟨l0, l1⟩
  simp only [calculate_investment_score]
  refine ⟨⟨a0, a1⟩, ⟨c0, c1⟩, ⟨m0, m1⟩, ⟨l0, l1⟩, ⟨?_, ?_⟩, ⟨r0, r1⟩, ⟨?_, ?_⟩⟩
  · exact_mod_cast ra0
  · exact_mod_cast ra1
  · exact_mod_cast ov0
  · exact_mod_cast ov1

/-- C1 counterexample: the request `list_price=300000`, `sqft=1500`,
`appreciation_forecast=-30` yields appreciation score
`min(100, int((50 - 150)/2)) = -50`, outside `[0, 100]`: the blend step of
`calculate_appreciation_score` has no lower clamp. -/
theorem C1_counterexample :
    (calculate_investment_score c1req).appreciation_score = -50
  ∧ ¬ (0 ≤ (calculate_investment_score c1req).appreciation_score
      ∧ (calculate_investment_score c1req).appreciation_score ≤ 100) := by
  have h : (calculate_investment_score c1req).appreciation_score = -50 := by
    simp [calculate_investment_score, c1req, calculate_appreciation_score,
      optIntTruthy, optRatTruthy]
    norm_num [pyInt]
  refine ⟨h, ?_⟩
  rintro ⟨h0, _⟩
  rw [h] at h0
  norm_num at h0

theorem C1_witness :
    (0 ≤ (calculate_investment_score c1wreq).appreciation_score
      ∧ (calculate_investment_score c1wreq).appreciation_score ≤ 100)
  ∧ (0 ≤ (calculate_investment_score c1wreq).cash_flow_score
      ∧ (calculate_investment_score c1wreq).cash_flow_score ≤ 100)
  ∧ (0 ≤ (calculate_investment_score c1wreq).market_momentum_score
      ∧ (calculate_investment_score c1wreq).market_momentum_score ≤ 100)
  ∧ (0 ≤ (calculate_investment_score c1wreq).liquidity_score
      ∧ (calculate_investment_score c1wreq).liquidity_score ≤ 100)
  ∧ (0 ≤ (calculate_investment_score c1wreq).risk_adjusted_score
      ∧ (calculate_investment_score c1wreq).risk_adjusted_score ≤ 100)
  ∧ (0 ≤ (calculate_investment_score c1wreq).risk_score
      ∧ (calculate_investment_score c1wreq).risk_score ≤ 100)
  ∧ (0 ≤ (calculate_investment_score c1wreq).overall_score
      ∧ (calculate_investment_score c1wreq).overall_score ≤ 100) :=
  C1_score_ranges c1wreq (by norm_num [c1wreq]) (by norm_num [c1wreq])
    (fun g h => Option.noConfusion h) (fun m d hm _ => Option.noConfusion hm)

theorem C3_witness :
    calculate_appreciation_score 300000 none none = 50
  ∧ calculate_appreciation_score 300000 (some 315000) none =
      min 100 (max 0 (50 + ((((315000 : ℤ) : ℚ) - ((300000 : ℤ) : ℚ)) /
        ((300000 : ℤ) : ℚ) * 100) * 5))
  ∧ calculate_appreciation_score 300000 (some 315000) (some 2) =
      min 100 ((pyInt ((min 100 (max 0 (50 + ((((315000 : ℤ) : ℚ) -
        ((300000 : ℤ) : ℚ)) / ((300000 : ℤ) : ℚ) * 100) * 5)) + (2 : ℚ) * 5) / 2) : ℤ) : ℚ)
  ∧ calculate_appreciation_score 100 (some 1) (some (-10)) = -25 :=
  C3_appreciation_formula 300000 315000 2 (by norm_num) (by norm_num) (by norm_num)

theorem C7_witness :
    ((generate_synthetic_comps c7req c7draws).length : ℤ) = c7req.limit
  ∧ List.Sorted compGE (generate_synthetic_comps c7req c7draws) :=
  C7_comps_sorted c7req c7draws (by norm_num [c7req])

theorem C4_witness :
    (0.9 : ℚ) * (c4req.sqft : ℚ) - 1 < ((makeComp c4req 0 c4draw).sqft : ℚ)
  ∧ ((makeComp c4req 0 c4draw).sqft : ℚ) ≤ (1.1 : ℚ) * (c4req.sqft : ℚ) :=
  C4_sqft_band c4req (fun _ => c4draw) (makeComp c4req 0 c4draw)
    (by norm_num [c4req])
    (fun _ => ⟨by norm_num [c4draw], by norm_num [c4draw]⟩)
    (by simp [generate_synthetic_comps, c4req])

end PropertyIQ